import Mathlib

/-!
Shallow embedding of the filter-and-segment pipeline of `dashboard01.py`
(Boston grocery store mobility dashboard).

Modelling conventions:
* pandas float64 columns are modelled by `ℚ`; a missing value (NaN) in a
  column is modelled by `none` in an `Option` field.  All float comparisons
  appearing in the script are exact on the values involved, so `ℚ` is a
  faithful idealisation.
* A raw spreadsheet cell of one of the three numeric columns is a `Cell`:
  either an already-numeric value, a non-numeric text value, or an absent
  value.  `pd.to_numeric(..., errors='coerce')` is total and never raises;
  a text value that would parse as a number is modelled as `Cell.num`.
* Python `int()` applied to a float truncates toward zero; on our `ℚ`
  values this is `Int.tdiv` of numerator by denominator (`truncInt`).
  `int()` applied to NaN raises `ValueError`; every place the script can
  reach that call with NaN is modelled by an `Option` result (`none` =
  the script aborts with an exception).
* `DataFrame.sort_values(col, ascending=False)` goes through pandas
  `nargsort`, which reverses the array, runs an ascending argsort and
  reverses the resulting indexer again.  The default argsort kernel
  (`kind='quicksort'`, numpy introsort) is not stable, so the relative
  order of key-tied rows in the output is unspecified by the program.
  `sortDescBy` instantiates the kernel as an insertion sort, one concrete
  permutation-producing sort; every theorem below about `sortDescBy` uses
  only facts (membership, being a permutation of the input, which rows
  are present) that hold for any kernel, never the tie order.
-/

namespace Dashboard

/-- A raw spreadsheet cell of a numeric column before coercion: an already
numeric value, a non-numeric text value (fails `pd.to_numeric`), or an
absent value. -/
inductive Cell where
  | num (q : ℚ)
  | txt (s : String)
  | missing
deriving DecidableEq

/-- `pd.to_numeric(x, errors='coerce')` for one cell: total, never raises;
anything that fails numeric coercion becomes a missing value (`none`). -/
def toNumericCoerce : Cell → Option ℚ
  | .num q => some q
  | .txt _ => none
  | .missing => none

/-- One raw spreadsheet row of `dashboard_ready_scaled.xlsx` before the
numeric coercion performed by `load_data`. -/
structure RawRow where
  location_name : String
  latitude : Option ℚ
  longitude : Option ℚ
  visit_count : Cell
  huff_predicted_visits_scaled : Cell
  visits_gap_scaled : Cell
  cluster : Option ℤ
  income_group : Option String
deriving DecidableEq

/-- One record of the loaded Dataset (a row of the dataframe after the
coercion step of `load_data`). -/
structure Row where
  location_name : String
  latitude : Option ℚ
  longitude : Option ℚ
  visit_count : Option ℚ
  huff_predicted_visits_scaled : Option ℚ
  visits_gap_scaled : Option ℚ
  cluster : Option ℤ
  income_group : Option String
deriving DecidableEq

/-- The three `pd.to_numeric(..., errors='coerce')` assignments of
`load_data` applied to one row. -/
def coerceRow (r : RawRow) : Row :=
  { location_name := r.location_name
    latitude := r.latitude
    longitude := r.longitude
    visit_count := toNumericCoerce r.visit_count
    huff_predicted_visits_scaled := toNumericCoerce r.huff_predicted_visits_scaled
    visits_gap_scaled := toNumericCoerce r.visits_gap_scaled
    cluster := r.cluster
    income_group := r.income_group }

/-- The predicate of `dropna(subset=['latitude', 'longitude', 'visit_count',
'huff_predicted_visits_scaled'])`: the four required fields are present.
Note `visits_gap_scaled` is not in the subset. -/
def requiredPresent (r : Row) : Bool :=
  r.latitude.isSome && r.longitude.isSome &&
    r.visit_count.isSome && r.huff_predicted_visits_scaled.isSome

/-- `load_data`: coerce the three numeric columns, then drop every row
missing one of the four required fields. -/
def load_data (raw : List RawRow) : List Row :=
  (raw.map coerceRow).filter requiredPresent

/-- The loaded dataframe together with which optional categorical columns
exist in the spreadsheet (`'cluster' in df.columns`,
`'income_group' in df.columns`). -/
structure Dataset where
  rows : List Row
  hasCluster : Bool
  hasIncome : Bool
deriving DecidableEq

/-- `df['cluster'].isin(selected_clusters)` for one row: a missing cluster
is never a member. -/
def clusterPass (sel : List ℤ) (r : Row) : Bool :=
  match r.cluster with
  | some c => sel.contains c
  | none => false

/-- `astype(str)` on the `income_group` column: pandas renders a missing
value as the string `"nan"`. -/
def strOfIncome : Option String → String
  | some s => s
  | none => "nan"

/-- `df['income_group'].astype(str).isin(selected_income)` for one row. -/
def incomePass (sel : List String) (r : Row) : Bool :=
  sel.contains (strOfIncome r.income_group)

/-- First-occurrence deduplication, as performed by pandas
`Series.unique()`. -/
def uniqueFirst {α : Type} [DecidableEq α] (l : List α) : List α :=
  l.foldl (fun acc x => if x ∈ acc then acc else acc ++ [x]) []

/-- `sorted(df['cluster'].dropna().unique())`: the option values of the
cluster multiselect (and its default selection). -/
def clusterOptions (ds : Dataset) : List ℤ :=
  List.insertionSort (· ≤ ·) (uniqueFirst (ds.rows.filterMap Row.cluster))

/-- The dataframe after the cluster filter block (lines 27-30): applied
only when the `cluster` column exists. -/
def afterClusterFilter (ds : Dataset) (selC : List ℤ) : List Row :=
  if ds.hasCluster then ds.rows.filter (clusterPass selC) else ds.rows

/-- `[str(g) for g in df['income_group'].dropna().unique()]`, computed from
the dataframe that the cluster filter has already narrowed: the option
values of the income multiselect (and its default selection). -/
def incomeOptions (ds : Dataset) (selC : List ℤ) : List String :=
  uniqueFirst ((afterClusterFilter ds selC).filterMap Row.income_group)

/-- The dataframe after both categorical filter blocks (lines 27-35). -/
def afterCategorical (ds : Dataset) (selC : List ℤ) (selI : List String) :
    List Row :=
  let v := afterClusterFilter ds selC
  if ds.hasIncome then v.filter (incomePass selI) else v

/-- The non-missing values of the `visits_gap_scaled` column, in row
order (pandas aggregations skip NaN). -/
def gapsOf (rows : List Row) : List ℚ :=
  rows.filterMap Row.visits_gap_scaled

/-- `Series.min()` with NaN skipped; `none` models the NaN result on an
empty (or all-NaN) series. -/
def seriesMin : List ℚ → Option ℚ
  | [] => none
  | x :: xs =>
    some (match seriesMin xs with
          | none => x
          | some m => min x m)

/-- `Series.max()` with NaN skipped; `none` models the NaN result on an
empty (or all-NaN) series. -/
def seriesMax : List ℚ → Option ℚ
  | [] => none
  | x :: xs =>
    some (match seriesMax xs with
          | none => x
          | some m => max x m)

/-- Python `int()` on a float value: truncation toward zero. -/
def truncInt (q : ℚ) : ℤ :=
  q.num.tdiv q.den

/-- Line 37: `gap_min, gap_max = int(df[...].min()), int(df[...].max())`,
evaluated on the dataframe the categorical filters already narrowed.
`none` models the `ValueError` that `int(nan)` raises when the narrowed
frame has no non-missing gap value. -/
def gapBounds (rows : List Row) : Option (ℤ × ℤ) :=
  match seriesMin (gapsOf rows), seriesMax (gapsOf rows) with
  | some m, some M => some (truncInt m, truncInt M)
  | _, _ => none

/-- The slider default bounds as the script computes them for given
categorical selections. -/
def defaultGapBounds (ds : Dataset) (selC : List ℤ) (selI : List String) :
    Option (ℤ × ℤ) :=
  gapBounds (afterCategorical ds selC selI)

/-- Line 39: `(df['visits_gap_scaled'] >= lo) & (df['visits_gap_scaled'] <= hi)`
for one row; a NaN gap compares false on both sides. -/
def gapPass (lo hi : ℤ) (r : Row) : Bool :=
  match r.visits_gap_scaled with
  | some g => decide ((lo : ℚ) ≤ g) && decide (g ≤ (hi : ℚ))
  | none => false

/-- The gap-range filter applied to the categorical-filtered dataframe. -/
def applyGapFilter (rows : List Row) (lo hi : ℤ) : List Row :=
  rows.filter (gapPass lo hi)

/-- The Filtered View: the dataframe after all three sidebar filter
blocks, with the gap range `[lo, hi]`. -/
def filteredView (ds : Dataset) (selC : List ℤ) (selI : List String)
    (lo hi : ℤ) : List Row :=
  applyGapFilter (afterCategorical ds selC selI) lo hi

/-- Python `round` at the integer grid: round half to even. -/
def roundHalfEven (q : ℚ) : ℤ :=
  let f := ⌊q⌋
  let r := q - f
  if r < 1/2 then f
  else if 1/2 < r then f + 1
  else if f % 2 = 0 then f else f + 1

/-- Python `round(x, 1)`: round to one decimal place, ties to even. -/
def round1 (q : ℚ) : ℚ :=
  (roundHalfEven (q * 10) : ℚ) / 10

/-- `Series.mean()` with NaN skipped; `none` models the NaN result on an
empty series. -/
def seriesMean (l : List ℚ) : Option ℚ :=
  match l with
  | [] => none
  | _ => some (l.sum / l.length)

/-- The three summary metrics of lines 48-51. -/
structure Summary where
  total_actual : ℤ
  total_predicted : ℤ
  average_gap : Option ℚ
deriving DecidableEq

/-- Lines 49-51: `int(df['visit_count'].sum())`,
`int(df['huff_predicted_visits_scaled'].sum())`,
`round(df['visits_gap_scaled'].mean(), 1)` (NaN skipped by the pandas
aggregations; an empty sum is `0`, an empty mean is NaN = `none`). -/
def summarize (rows : List Row) : Summary :=
  { total_actual := truncInt ((rows.filterMap Row.visit_count).sum)
    total_predicted := truncInt ((rows.filterMap Row.huff_predicted_visits_scaled).sum)
    average_gap := (seriesMean (gapsOf rows)).map round1 }

/-- The three performance segments produced by `categorize_gap`. -/
inductive Segment where
  | strongPerformer
  | onTarget
  | opportunityArea
deriving DecidableEq

/-- Lines 118-124, `categorize_gap`: `> 20` strong, `< -20` opportunity,
otherwise on target.  A NaN gap fails both comparisons in Python and falls
through to `'On Target'`. -/
def categorize_gap (r : Row) : Segment :=
  match r.visits_gap_scaled with
  | some g =>
    if 20 < g then .strongPerformer
    else if g < -20 then .opportunityArea
    else .onTarget
  | none => .onTarget

/-- `df['visits_gap_scaled']` as a sort key (only ever evaluated on rows
whose gap is present, see `filtered_view_gap_present`). -/
def gapKey (r : Row) : ℚ :=
  r.visits_gap_scaled.getD 0

/-- Line 115: `df['visits_gap_scaled'].abs()` as a sort key. -/
def absGapKey (r : Row) : ℚ :=
  |gapKey r|

instance {α : Type} (k : α → ℚ) : DecidableRel (fun a b : α => k b ≤ k a) :=
  fun _ _ => inferInstanceAs (Decidable (_ ≤ _))

/-- `sort_values(col, ascending=False)`: a descending sort by the key.
The program's default argsort kernel (`kind='quicksort'`) is unstable, so
its tie order is unspecified; this instantiation fixes one concrete
kernel, and the theorems below rely only on kernel-independent facts
(membership and permutation), never on the tie order (see the module
docstring). -/
def sortDescBy {α : Type} (k : α → ℚ) (l : List α) : List α :=
  List.insertionSort (fun a b => k b ≤ k a) l

/-- Line 116: `highlight_df = df.sort_values('abs_gap', ascending=False)`. -/
def highlightRows (view : List Row) : List Row :=
  sortDescBy absGapKey view

/-- Line 138: the dataframe shown in the segmented table,
`highlight_df[...].sort_values('visits_gap_scaled', ascending=False)`. -/
def displayedRows (view : List Row) : List Row :=
  sortDescBy gapKey (highlightRows view)

/-- The column subset `table_cols_segmented` of one row, together with the
derived `'Performance Segment'` column. -/
structure CsvRow where
  location_name : String
  visit_count : Option ℚ
  huff_predicted_visits_scaled : Option ℚ
  visits_gap_scaled : Option ℚ
  performance_segment : Segment
  cluster : Option ℤ
  income_group : Option String
  latitude : Option ℚ
  longitude : Option ℚ
deriving DecidableEq

/-- Project one dataframe row to the exported/displayed column subset. -/
def toCsvRow (r : Row) : CsvRow :=
  { location_name := r.location_name
    visit_count := r.visit_count
    huff_predicted_visits_scaled := r.huff_predicted_visits_scaled
    visits_gap_scaled := r.visits_gap_scaled
    performance_segment := categorize_gap r
    cluster := r.cluster
    income_group := r.income_group
    latitude := r.latitude
    longitude := r.longitude }

/-- The header row written by `to_csv(index=False)`. -/
def csvHeader : List String :=
  ["location_name", "visit_count", "huff_predicted_visits_scaled",
   "visits_gap_scaled", "Performance Segment", "cluster", "income_group",
   "latitude", "longitude"]

/-- A serialized CSV download: a header row followed by data rows, one per
dataframe row, with no row-index column. -/
structure Csv where
  header : List String
  rows : List CsvRow
deriving DecidableEq

/-- Lines 142-147: the download serializes
`highlight_df[table_cols_segmented].to_csv(index=False)` - the
abs-gap-sorted frame, without the extra `sort_values` applied to the
displayed table. -/
def exportCsv (view : List Row) : Csv :=
  { header := csvHeader, rows := (highlightRows view).map toCsvRow }

/-- The cell contents of the segmented table as displayed on screen. -/
def displayedTable (view : List Row) : List CsvRow :=
  (displayedRows view).map toCsvRow

/-- One full reactive run of the script for given filter selections:
`none` models an uncaught exception.  `userRange` is the slider position
(`none` = slider left at its default, which is the computed bounds). -/
def runScript (ds : Dataset) (selC : List ℤ) (selI : List String)
    (userRange : Option (ℤ × ℤ)) : Option (List Row × Summary) :=
  let v1 := afterCategorical ds selC selI
  match gapBounds v1 with
  | none => none
  | some (lo, hi) =>
    let r := userRange.getD (lo, hi)
    let view := applyGapFilter v1 r.1 r.2
    some (view, summarize view)

/-! ### Sample data used in concrete instances -/

/-- A dataframe row with the given name, cluster, visit count, prediction
and (possibly missing) gap; coordinates present, income absent. -/
def sampleRow (name : String) (c : Option ℤ) (v p : ℚ) (g : Option ℚ) : Row :=
  { location_name := name, latitude := some 0, longitude := some 0,
    visit_count := some v, huff_predicted_visits_scaled := some p,
    visits_gap_scaled := g, cluster := c, income_group := none }

/-- A raw row whose four required fields are present but whose
`visits_gap_scaled` cell fails numeric coercion. -/
def sampleRaw : RawRow :=
  { location_name := "r", latitude := some 1, longitude := some 2,
    visit_count := .num 3, huff_predicted_visits_scaled := .num 4,
    visits_gap_scaled := .txt "oops", cluster := none, income_group := none }

/-- One row, cluster column present: deselecting every cluster empties the
frame that line 37 takes `min`/`max` of. -/
def dsC2 : Dataset :=
  { rows := [sampleRow "a" (some 0) 1 1 (some 5)],
    hasCluster := true, hasIncome := false }

/-- Two clusters with very different gaps: narrowing by cluster changes
the slider bounds of line 37. -/
def dsC3 : Dataset :=
  { rows := [sampleRow "a" (some 0) 1 1 (some 100),
             sampleRow "b" (some 1) 1 1 (some 5)],
    hasCluster := true, hasIncome := false }

/-- A single row with the non-integer gap `5.7`. -/
def dsC6 : Dataset :=
  { rows := [sampleRow "a" none 1 1 (some (57/10))],
    hasCluster := false, hasIncome := false }

/-- A single row with the negative non-integer gap `-2.5`. -/
def dsC7 : Dataset :=
  { rows := [sampleRow "a" none 1 1 (some (-5/2))],
    hasCluster := false, hasIncome := false }

/-- A single row with gap `0`, no categorical columns. -/
def sampleDs0 : Dataset :=
  { rows := [sampleRow "a" none 1 1 (some 0)],
    hasCluster := false, hasIncome := false }

/-- The spec's aggregate example view:
`[{visit_count:10, pred:8}, {visit_count:20, pred:25}]` with the
upstream-precomputed gaps `2` and `-5`. -/
def viewC8 : List Row :=
  [sampleRow "s1" none 10 8 (some 2), sampleRow "s2" none 20 25 (some (-5))]

/-- Two rows whose abs-gap order (`-30` first) differs from their
gap-descending order (`10` first). -/
def viewC1 : List Row :=
  [sampleRow "a" none 1 1 (some 10), sampleRow "b" none 1 1 (some (-30))]

/-! ### Helper lemmas -/

/-- Truncation toward zero is the floor for nonnegative values and the
ceiling for negative ones. -/
theorem truncInt_eq_floor_ceil (q : ℚ) :
    truncInt q = if 0 ≤ q then ⌊q⌋ else ⌈q⌉ := by
  unfold truncInt
  by_cases h : 0 ≤ q
  · rw [if_pos h, Rat.floor_def]
    exact Int.tdiv_eq_ediv (Rat.num_nonneg.mpr h) (Int.natCast_nonneg q.den)
  · rw [if_neg h]
    have hneg : (0 : ℚ) ≤ -q := by linarith [not_le.mp h]
    calc q.num.tdiv q.den
        = -((-q).num.tdiv ((-q).den : ℤ)) := by
          rw [Rat.neg_num, Rat.neg_den, Int.neg_tdiv, neg_neg]
      _ = -⌊-q⌋ := by
          rw [Rat.floor_def,
            Int.tdiv_eq_ediv (Rat.num_nonneg.mpr hneg) (Int.natCast_nonneg _)]
      _ = ⌈q⌉ := by rw [Int.floor_neg, neg_neg]

/-- The descending sort is a permutation of its input (a fact that holds
for any argsort kernel). -/
theorem perm_sortDescBy {α : Type} (k : α → ℚ) (l : List α) :
    (sortDescBy k l).Perm l :=
  List.perm_insertionSort _ l

/-- Membership is invariant under the descending sort. -/
theorem mem_sortDescBy {α : Type} {a : α} (k : α → ℚ) {l : List α} :
    a ∈ sortDescBy k l ↔ a ∈ l :=
  (perm_sortDescBy k l).mem_iff

/-- `seriesMin` returns an attained lower bound of the list. -/
theorem seriesMin_spec :
    ∀ (l : List ℚ) (m : ℚ), seriesMin l = some m → m ∈ l ∧ ∀ x ∈ l, m ≤ x := by
  intro l
  induction l with
  | nil => intro m h; simp [seriesMin] at h
  | cons x xs ih =>
    intro m h
    rw [seriesMin] at h
    cases hxs : seriesMin xs with
    | none =>
      rw [hxs] at h
      have hx : m = x := by simpa using h.symm
      subst hx
      have hnil : xs = [] := by
        cases xs with
        | nil => rfl
        | cons y ys => rw [seriesMin] at hxs; exact absurd hxs (by simp)
      subst hnil
      exact ⟨List.mem_singleton_self m, by intro z hz; rw [List.mem_singleton.mp hz]⟩
    | some m' =>
      rw [hxs] at h
      have hmin : m = min x m' := by simpa using h.symm
      obtain ⟨hm, hlb⟩ := ih m' hxs
      subst hmin
      constructor
      · rcases le_total x m' with hc | hc
        · rw [min_eq_left hc]; exact List.mem_cons_self x xs
        · rw [min_eq_right hc]; exact List.mem_cons_of_mem _ hm
      · intro z hz
        rcases List.mem_cons.mp hz with rfl | hz'
        · exact min_le_left _ _
        · exact le_trans (min_le_right _ _) (hlb z hz')

/-- `seriesMax` returns an attained upper bound of the list. -/
theorem seriesMax_spec :
    ∀ (l : List ℚ) (M : ℚ), seriesMax l = some M → M ∈ l ∧ ∀ x ∈ l, x ≤ M := by
  intro l
  induction l with
  | nil => intro M h; simp [seriesMax] at h
  | cons x xs ih =>
    intro M h
    rw [seriesMax] at h
    cases hxs : seriesMax xs with
    | none =>
      rw [hxs] at h
      have hx : M = x := by simpa using h.symm
      subst hx
      have hnil : xs = [] := by
        cases xs with
        | nil => rfl
        | cons y ys => rw [seriesMax] at hxs; exact absurd hxs (by simp)
      subst hnil
      exact ⟨List.mem_singleton_self M, by intro z hz; rw [List.mem_singleton.mp hz]⟩
    | some M' =>
      rw [hxs] at h
      have hmax : M = max x M' := by simpa using h.symm
      obtain ⟨hm, hub⟩ := ih M' hxs
      subst hmax
      constructor
      · rcases le_total x M' with hc | hc
        · rw [max_eq_right hc]; exact List.mem_cons_of_mem _ hm
        · rw [max_eq_left hc]; exact List.mem_cons_self x xs
      · intro z hz
        rcases List.mem_cons.mp hz with rfl | hz'
        · exact le_max_left _ _
        · exact le_trans (hub z hz') (le_max_right _ _)

/-- A row is in the Filtered View iff it is in the Dataset and passes
every filter whose column exists, independently. -/
theorem mem_filteredView_iff (ds : Dataset) (selC : List ℤ)
    (selI : List String) (lo hi : ℤ) (r : Row) :
    r ∈ filteredView ds selC selI lo hi ↔
      r ∈ ds.rows ∧ (ds.hasCluster = true → clusterPass selC r = true) ∧
        (ds.hasIncome = true → incomePass selI r = true) ∧
        gapPass lo hi r = true := by
  unfold filteredView applyGapFilter afterCategorical afterClusterFilter
  cases hC : ds.hasCluster <;> cases hI : ds.hasIncome <;>
    simp [List.mem_filter, and_assoc] <;> tauto

/-- A row can only pass the gap-range comparisons if its gap is present
(a NaN comparison is false in pandas). -/
theorem gapPass_isSome {lo hi : ℤ} {r : Row} (h : gapPass lo hi r = true) :
    r.visits_gap_scaled.isSome = true := by
  unfold gapPass at h
  cases hg : r.visits_gap_scaled with
  | none => rw [hg] at h; exact absurd h (by simp)
  | some g => simp [hg]

/-! ### Claims -/

/-- Claim C1, counterexample: for the two-row view with gaps `10` and
`-30`, the CSV download serializes `highlight_df` in abs-gap-descending
order (`-30` row first), while the displayed segmented table is
additionally sorted by gap descending (`10` row first), so the exported
data rows are not the displayed rows in displayed order. -/
theorem csv_export_order_differs_from_display :
    (exportCsv viewC1).rows ≠ displayedTable viewC1 := by
  norm_num [exportCsv, displayedTable, highlightRows, displayedRows, sortDescBy,
    viewC1, sampleRow, List.insertionSort, List.orderedInsert, absGapKey, gapKey,
    toCsvRow, categorize_gap, CsvRow.mk.injEq]

/-- Claim C1, amended: for every filter state, the exported CSV has the
designated header row, no row-index column, and its data rows are exactly
the rows and column values of the displayed segmented table (as a
multiset); but they are serialized in the abs-gap-descending
(`highlight_df`) order, not in the displayed gap-descending order. -/
theorem csv_export_same_rows_as_display (view : List Row) :
    (exportCsv view).header = csvHeader ∧
    (exportCsv view).rows = (highlightRows view).map toCsvRow ∧
    ((exportCsv view).rows).Perm (displayedTable view) := by
  refine ⟨rfl, rfl, ?_⟩
  exact (List.Perm.map toCsvRow (perm_sortDescBy gapKey (highlightRows view))).symm

/-- Claim C2 (code bug): on a dataset with a cluster column and one row,
deselecting every cluster empties the frame, so line 37 evaluates
`int(nan)` and the run aborts with `ValueError` (`none`) instead of
rendering an empty view with zero sums and a sentinel mean. -/
theorem empty_selection_aborts_run :
    clusterOptions dsC2 = [0] ∧ afterCategorical dsC2 [] [] = [] ∧
      runScript dsC2 [] [] none = none := by
  norm_num [clusterOptions, uniqueFirst, dsC2, sampleRow, runScript,
    afterCategorical, afterClusterFilter, clusterPass, gapBounds, gapsOf,
    seriesMin, seriesMax, List.filter_cons, List.insertionSort,
    List.orderedInsert]

/-- Claim C3, counterexample: on a two-cluster dataset with gaps `100`
(cluster 0) and `5` (cluster 1), the slider bounds are `(5, 100)` under
the select-all cluster selection but `(5, 5)` once the cluster filter is
narrowed to cluster 1 — the bounds are recomputed from the narrowed view,
not fixed once from the unfiltered Dataset. -/
theorem gap_bounds_change_under_cluster_filter :
    defaultGapBounds dsC3 [0, 1] [] = some (5, 100) ∧
      defaultGapBounds dsC3 [1] [] = some (5, 5) ∧
      ((5 : ℤ), (5 : ℤ)) ≠ ((5 : ℤ), (100 : ℤ)) := by
  norm_num [defaultGapBounds, gapBounds, afterCategorical, afterClusterFilter,
    gapsOf, seriesMin, seriesMax, dsC3, sampleRow, truncInt_eq_floor_ceil,
    clusterPass, List.filter_cons, List.filterMap_cons]

/-- Claim C3, amended: on every rerun the gap-slider bounds are the
truncation toward zero of the minimum and of the maximum gap value of the
view already narrowed by the cluster and income-group filters; they can
change when those filters change. -/
theorem gap_bounds_from_narrowed_view (ds : Dataset) (selC : List ℤ)
    (selI : List String) (lo hi : ℤ)
    (h : defaultGapBounds ds selC selI = some (lo, hi)) :
    ∃ m M, m ∈ gapsOf (afterCategorical ds selC selI) ∧
      M ∈ gapsOf (afterCategorical ds selC selI) ∧
      lo = truncInt m ∧ hi = truncInt M ∧
      ∀ g ∈ gapsOf (afterCategorical ds selC selI), m ≤ g ∧ g ≤ M := by
  unfold defaultGapBounds gapBounds at h
  cases hm : seriesMin (gapsOf (afterCategorical ds selC selI)) with
  | none => rw [hm] at h; exact absurd h (by simp)
  | some m =>
    cases hM : seriesMax (gapsOf (afterCategorical ds selC selI)) with
    | none => rw [hm, hM] at h; exact absurd h (by simp)
    | some M =>
      rw [hm, hM] at h
      obtain ⟨h1, h2⟩ := Prod.mk.injEq .. ▸ Option.some.injEq .. ▸ h
      obtain ⟨hmem, hlb⟩ := seriesMin_spec _ m hm
      obtain ⟨hMem, hub⟩ := seriesMax_spec _ M hM
      exact ⟨m, M, hmem, hMem, h1.symm, h2.symm,
        fun g hg => ⟨hlb g hg, hub g hg⟩⟩

/-- Witness for `gap_bounds_from_narrowed_view` at the concrete dataset
`dsC3` with the cluster filter narrowed to cluster 1. -/
theorem gap_bounds_from_narrowed_view_witness :
    ∃ m M, m ∈ gapsOf (afterCategorical dsC3 [1] []) ∧
      M ∈ gapsOf (afterCategorical dsC3 [1] []) ∧
      (5 : ℤ) = truncInt m ∧ (5 : ℤ) = truncInt M ∧
      ∀ g ∈ gapsOf (afterCategorical dsC3 [1] []), m ≤ g ∧ g ≤ M :=
  gap_bounds_from_narrowed_view dsC3 [1] [] 5 5 (by
    norm_num [defaultGapBounds, gapBounds, afterCategorical, afterClusterFilter,
      gapsOf, seriesMin, seriesMax, dsC3, sampleRow, truncInt_eq_floor_ceil,
      clusterPass, List.filter_cons, List.filterMap_cons])

/-- Claim C5 (confirmed): `categorize_gap` assigns exactly one segment to
every row with a present gap, by the fixed thresholds `> 20` strong,
`< -20` opportunity, otherwise (including exactly `20` and `-20`) on
target; in particular `20.01` is strong and `-20.01` is opportunity. -/
theorem categorize_gap_thresholds :
    (∀ (r : Row) (g : ℚ), r.visits_gap_scaled = some g →
      (categorize_gap r = .strongPerformer ↔ 20 < g) ∧
      (categorize_gap r = .opportunityArea ↔ g < -20) ∧
      (categorize_gap r = .onTarget ↔ -20 ≤ g ∧ g ≤ 20)) ∧
    categorize_gap (sampleRow "x" none 1 1 (some 20)) = .onTarget ∧
    categorize_gap (sampleRow "x" none 1 1 (some (-20))) = .onTarget ∧
    categorize_gap (sampleRow "x" none 1 1 (some (2001/100))) = .strongPerformer ∧
    categorize_gap (sampleRow "x" none 1 1 (some (-2001/100))) = .opportunityArea := by
  refine ⟨?_, ?_, ?_, ?_, ?_⟩
  · intro r g hg
    simp only [categorize_gap, hg]
    split_ifs with h1 h2
    · exact ⟨by simp [h1], by simp; linarith, by simp; intro hle; linarith⟩
    · exact ⟨by simp; linarith, by simp [h2], by simp; intro hle; linarith⟩
    · exact ⟨by simp; linarith, by simp; linarith,
        by simp; constructor <;> linarith⟩
  all_goals norm_num [categorize_gap, sampleRow]

/-- Witness for the universally quantified part of
`categorize_gap_thresholds`, at the concrete gap `25`. -/
theorem categorize_gap_thresholds_witness :
    categorize_gap (sampleRow "x" none 1 1 (some 25)) = .strongPerformer ↔
      (20 : ℚ) < 25 :=
  (categorize_gap_thresholds.1 (sampleRow "x" none 1 1 (some 25)) 25 rfl).1

/-- Claim C6, counterexample: a dataset holding one row with gap `5.7`
has default truncated bounds `(5, 5)`; with no categorical filters active
and the slider at its full default range the Filtered View is empty, not
the full Dataset. -/
theorem select_all_default_bounds_not_full_dataset :
    defaultGapBounds dsC6 [] [] = some (5, 5) ∧
      filteredView dsC6 [] [] 5 5 = [] ∧ dsC6.rows ≠ [] := by
  refine ⟨?_, ?_, by simp [dsC6]⟩
  · norm_num [defaultGapBounds, gapBounds, afterCategorical, afterClusterFilter,
      gapsOf, seriesMin, seriesMax, dsC6, sampleRow, truncInt_eq_floor_ceil,
      List.filterMap_cons]
  · norm_num [filteredView, applyGapFilter, afterCategorical, afterClusterFilter,
      gapPass, dsC6, sampleRow, List.filter_cons]

/-- Claim C6, amended: a row is in the Filtered View iff it is in the
Dataset and independently passes every filter whose column exists
(conjunction); and whenever every Dataset row passes all active filters
at the default bounds (which can fail for rows whose gap lies above the
truncated maximum or below the truncated minimum, whose gap is missing,
or whose cluster or income value is missing or deselected), the view is
identical — same rows, same order — to the full Dataset. -/
theorem filter_conjunction_and_select_all :
    (∀ (ds : Dataset) (selC : List ℤ) (selI : List String) (lo hi : ℤ)
        (r : Row), r ∈ filteredView ds selC selI lo hi ↔
        r ∈ ds.rows ∧ (ds.hasCluster = true → clusterPass selC r = true) ∧
          (ds.hasIncome = true → incomePass selI r = true) ∧
          gapPass lo hi r = true) ∧
    (∀ (ds : Dataset) (selC : List ℤ) (selI : List String) (lo hi : ℤ),
        (∀ r ∈ ds.rows,
          (ds.hasCluster = true → clusterPass selC r = true) ∧
            (ds.hasIncome = true → incomePass selI r = true) ∧
            gapPass lo hi r = true) →
        filteredView ds selC selI lo hi = ds.rows) := by
  refine ⟨mem_filteredView_iff, ?_⟩
  intro ds selC selI lo hi hall
  have h1 : afterClusterFilter ds selC = ds.rows := by
    unfold afterClusterFilter
    split_ifs with h
    · exact List.filter_eq_self.mpr fun r hr => (hall r hr).1 h
    · rfl
  have h2 : afterCategorical ds selC selI = ds.rows := by
    unfold afterCategorical
    rw [h1]
    split_ifs with h
    · exact List.filter_eq_self.mpr fun r hr => (hall r hr).2.1 h
    · rfl
  unfold filteredView applyGapFilter
  rw [h2]
  exact List.filter_eq_self.mpr fun r hr => (hall r hr).2.2

/-- Witness for `filter_conjunction_and_select_all` at the concrete
dataset `sampleDs0`, whose one row passes all filters at bounds `0, 0`. -/
theorem filter_conjunction_and_select_all_witness :
    filteredView sampleDs0 [] [] 0 0 = sampleDs0.rows :=
  filter_conjunction_and_select_all.2 sampleDs0 [] [] 0 0 (by
    norm_num [sampleDs0, sampleRow, gapPass, clusterPass, incomePass])

/-- Claim C7, counterexample: for the single gap `-2.5` the code computes
the bound `int(-2.5) = -2` (truncation toward zero), while the floor is
`-3`: the bounds are not obtained by flooring. -/
theorem gap_bounds_trunc_toward_zero_not_floor :
    defaultGapBounds dsC7 [] [] = some (-2, -2) ∧
      ⌊(-5/2 : ℚ)⌋ = -3 ∧ ((-2 : ℤ)) ≠ -3 := by
  norm_num [defaultGapBounds, gapBounds, afterCategorical, afterClusterFilter,
    gapsOf, seriesMin, seriesMax, dsC7, sampleRow, truncInt_eq_floor_ceil,
    Int.ceil_neg, List.filterMap_cons]

/-- Claim C7, amended: the integer bounds are obtained by truncating the
minimum and maximum gap toward zero (Python `int()`: floor for
nonnegative values, ceiling for negative ones), and a row passes the
range filter iff `lo ≤ gap ≤ hi` holds of its untruncated gap value. -/
theorem gap_bounds_trunc_and_raw_compare :
    (∀ q : ℚ, truncInt q = if 0 ≤ q then ⌊q⌋ else ⌈q⌉) ∧
    (∀ (lo hi : ℤ) (r : Row), gapPass lo hi r = true ↔
      ∃ g, r.visits_gap_scaled = some g ∧ (lo : ℚ) ≤ g ∧ g ≤ (hi : ℚ)) := by
  refine ⟨truncInt_eq_floor_ceil, ?_⟩
  intro lo hi r
  unfold gapPass
  cases hg : r.visits_gap_scaled <;> simp [hg]

/-- Witness for `gap_bounds_trunc_and_raw_compare` at a concrete row. -/
theorem gap_bounds_trunc_and_raw_compare_witness :
    gapPass 0 0 (sampleRow "a" none 1 1 (some 0)) = true ↔
      ∃ g, (sampleRow "a" none 1 1 (some 0)).visits_gap_scaled = some g ∧
        ((0 : ℤ) : ℚ) ≤ g ∧ g ≤ ((0 : ℤ) : ℚ) :=
  gap_bounds_trunc_and_raw_compare.2 0 0 (sampleRow "a" none 1 1 (some 0))

/-- Claim C8 (confirmed): the summarizer truncates the sum of
`visit_count` and the sum of `huff_predicted_visits_scaled` to integers
and rounds the mean gap to one decimal place; on the spec's example view
the totals are `30` and `33` and the average gap is `-1.5`. -/
theorem summarize_metrics :
    summarize viewC8 =
      { total_actual := 30, total_predicted := 33, average_gap := some (-3/2) } ∧
    (∀ rows : List Row,
      (summarize rows).total_actual =
        truncInt ((rows.filterMap Row.visit_count).sum) ∧
      (summarize rows).total_predicted =
        truncInt ((rows.filterMap Row.huff_predicted_visits_scaled).sum) ∧
      (summarize rows).average_gap = (seriesMean (gapsOf rows)).map round1) := by
  refine ⟨?_, fun _ => ⟨rfl, rfl, rfl⟩⟩
  norm_num [summarize, viewC8, sampleRow, gapsOf, seriesMean, round1,
    roundHalfEven, truncInt_eq_floor_ceil, Summary.mk.injEq,
    List.filterMap_cons, List.sum_cons, List.sum_nil]

/-- Claim C9 (confirmed): every row of the loaded Dataset has its four
required fields present; a coerced row with those fields present is kept
by the loader; and the numeric coercion turns uncoercible or absent cells
into missing values instead of raising. -/
theorem load_data_invariant :
    (∀ (raw : List RawRow), ∀ r ∈ load_data raw,
      r.latitude.isSome = true ∧ r.longitude.isSome = true ∧
        r.visit_count.isSome = true ∧
        r.huff_predicted_visits_scaled.isSome = true) ∧
    (∀ (raw : List RawRow), ∀ rr ∈ raw,
      requiredPresent (coerceRow rr) = true → coerceRow rr ∈ load_data raw) ∧
    (∀ s, toNumericCoerce (Cell.txt s) = none) ∧
    toNumericCoerce Cell.missing = none := by
  refine ⟨?_, ?_, fun _ => rfl, rfl⟩
  · intro raw r hr
    have h := (List.mem_filter.mp hr).2
    simpa [requiredPresent, Bool.and_eq_true, and_assoc] using h
  · intro raw rr hrr h
    exact List.mem_filter.mpr ⟨List.mem_map_of_mem coerceRow hrr, h⟩

/-- Witness for `load_data_invariant` at the concrete raw row
`sampleRaw` (required fields present, gap cell uncoercible). -/
theorem load_data_invariant_witness :
    coerceRow sampleRaw ∈ load_data [sampleRaw] :=
  load_data_invariant.2.1 [sampleRaw] sampleRaw (List.mem_singleton_self _) rfl

/-- Claim C10 (confirmed): a row with a missing gap never passes the
gap-range filter, so the Filtered View — and hence the displayed
segmented table and the exported CSV rows derived from it — contains only
rows with a present gap, although the loader itself retains rows whose
gap failed coercion (shown on `sampleRaw`). -/
theorem filtered_view_gap_present :
    (∀ (ds : Dataset) (selC : List ℤ) (selI : List String) (lo hi : ℤ),
      ∀ r ∈ filteredView ds selC selI lo hi, r.visits_gap_scaled.isSome = true) ∧
    (∀ (ds : Dataset) (selC : List ℤ) (selI : List String) (lo hi : ℤ),
      ∀ r ∈ displayedRows (filteredView ds selC selI lo hi),
        r.visits_gap_scaled.isSome = true) ∧
    (∀ (ds : Dataset) (selC : List ℤ) (selI : List String) (lo hi : ℤ),
      ∀ c ∈ (exportCsv (filteredView ds selC selI lo hi)).rows,
        c.visits_gap_scaled.isSome = true) ∧
    (coerceRow sampleRaw ∈ load_data [sampleRaw] ∧
      (coerceRow sampleRaw).visits_gap_scaled = none) := by
  have hbase : ∀ (ds : Dataset) (selC : List ℤ) (selI : List String)
      (lo hi : ℤ), ∀ r ∈ filteredView ds selC selI lo hi,
      r.visits_gap_scaled.isSome = true := by
    intro ds selC selI lo hi r hr
    exact gapPass_isSome ((mem_filteredView_iff ds selC selI lo hi r).mp hr).2.2.2
  refine ⟨hbase, ?_, ?_, ?_, rfl⟩
  · intro ds selC selI lo hi r hr
    have hr' : r ∈ filteredView ds selC selI lo hi := by
      have h1 := (mem_sortDescBy gapKey).mp hr
      exact (mem_sortDescBy absGapKey).mp h1
    exact hbase ds selC selI lo hi r hr'
  · intro ds selC selI lo hi c hc
    obtain ⟨r, hr, rfl⟩ := List.mem_map.mp hc
    have hr' : r ∈ filteredView ds selC selI lo hi :=
      (mem_sortDescBy absGapKey).mp hr
    exact hbase ds selC selI lo hi r hr'
  · exact List.mem_filter.mpr ⟨List.mem_map_of_mem coerceRow
      (List.mem_singleton_self _), rfl⟩

/-- Witness for `filtered_view_gap_present` at a concrete row of a
concrete Filtered View. -/
theorem filtered_view_gap_present_witness :
    (sampleRow "a" none 1 1 (some 0)).visits_gap_scaled.isSome = true :=
  filtered_view_gap_present.1 sampleDs0 [] [] 0 0
    (sampleRow "a" none 1 1 (some 0)) (by
      norm_num [filteredView, applyGapFilter, afterCategorical,
        afterClusterFilter, gapPass, sampleDs0, sampleRow, List.mem_filter])

end Dashboard
